import Mathlib

/-!
Verification of the carousel controller of a small 3D art-gallery viewer.

The program is a React-three-fiber application.  Its original logic is a
carousel state machine: gallery items are arranged radially around the
vertical axis, each item carries two arrow hit-targets tagged with a
precomputed neighbour index, a pointer click on an arrow issues a rotation
tween on the gallery root and (in the title-label variant) a crossfade of
the heading text together with an index update.

The definitions below are a shallow embedding of the two source variants
(`src/unnamed/part_000`, the title-label variant, and `src/src/App.tsx`);
each definition's doc comment points at the source lines it embeds.
-/

/-- A gallery item, one entry of the `images` array. -/
structure GalleryItem where
  title : String
  artist : String
  image : String
deriving DecidableEq

/-- The fixed gallery collection (`images`, identical in both variants). -/
def images : List GalleryItem :=
  [ ⟨"Max Verstappen", "Max Verstappen", "max_verstappen.jpg"⟩,
    ⟨"You Luke Huge", "You Luke", "you_luke_huge.png"⟩,
    ⟨"Mercy", "Mercy", "mercy.jpg"⟩,
    ⟨"Def Hop On Later", "Def Hop On Later", "def_hop_on_later.png"⟩,
    ⟨"Groundbreaking", "Groundbreaking", "groundbreaking.jpg"⟩ ]

/-- The `userData.index` tag of the left-arrow mesh of the item at `index`
(`Artwork`, ternary `index === count - 1 ? 0 : index + 1`). -/
def leftArrowIndex (count index : Nat) : Nat :=
  if index = count - 1 then 0 else index + 1

/-- The `userData.index` tag of the right-arrow mesh of the item at `index`
(`Artwork`, ternary `index === 0 ? count - 1 : index - 1`). -/
def rightArrowIndex (count index : Nat) : Nat :=
  if index = 0 then count - 1 else index - 1

/-- An element of the intersection list handed to the click handler: the
hit object's `name` and its `userData.index` tag (`none` when the object
carries no tag, as for the frame and artwork meshes). -/
structure Intersection where
  name : String
  userDataIndex : Option Nat
deriving DecidableEq

/-- What the click handler does: nothing, or a call
`rotateGallery(direction, newIndex)` where `newIndex` is the tag read off
the hit object (`undefined`, i.e. `none`, when the object has no tag). -/
inductive ClickAction where
  | noAction : ClickAction
  | navigate (direction : Int) (newIndex : Option Nat) : ClickAction
deriving DecidableEq

/-- The click handler `checkIntersection`: when the intersection list is
non-empty it consults `intersections[0].object` only; the name
`"LeftArrow"` fires `rotateGallery(-1, newIndex)`, the name `"RightArrow"`
fires `rotateGallery(1, newIndex)`, any other name does nothing. -/
def checkIntersection (intersections : List Intersection) : ClickAction :=
  match intersections with
  | [] => ClickAction.noAction
  | obj :: _ =>
    if obj.name = "LeftArrow" then ClickAction.navigate (-1) obj.userDataIndex
    else if obj.name = "RightArrow" then ClickAction.navigate 1 obj.userDataIndex
    else ClickAction.noAction

/-- The intersection records of the meshes one `Artwork` component
contributes to the scene: the frame box and the artwork box (no name, no
tag), then the two tagged arrow planes (`Artwork`, render tree). -/
def artworkIntersections (count index : Nat) : List Intersection :=
  [ ⟨"", none⟩,
    ⟨"", none⟩,
    ⟨"LeftArrow", some (leftArrowIndex count index)⟩,
    ⟨"RightArrow", some (rightArrowIndex count index)⟩ ]

/-- All clickable scene objects below the gallery root:
`images.map((image, index) => <Artwork image={image} index={index} .../>)`. -/
def sceneObjects : List Intersection :=
  (List.range images.length).flatMap (fun i => artworkIntersections images.length i)

/-- One settled click event on the carousel index: the index starts at `0`
(`useState(0)`) and is replaced by the tag of the clicked arrow once the
crossfade's `onComplete` has run `setIndex(newIndex)`; a click that hits
no arrow leaves it unchanged.  (In the scene every arrow carries a tag,
so `navigate` always receives `some` index.) -/
def appStep (index : Nat) (intersections : List Intersection) : Nat :=
  match checkIntersection intersections with
  | ClickAction.navigate _ (some newIndex) => newIndex
  | _ => index

/-- The heading text rendered for a given index: `<h1>{images[index].title}</h1>`. -/
def displayedTitle (index : Nat) : String :=
  ((images.get? index).getD ⟨"", "", ""⟩).title

/-- The rotation delta computed inside `rotateGallery`:
`const deltaY = direction * (2 * Math.PI / images.length)` (identical in
both variants; `Math.PI` is modelled by the real number `π`). -/
noncomputable def deltaY (direction : Int) : ℝ :=
  direction * (2 * Real.pi / images.length)

/-- A tween request issued to the animation engine by `rotateGallery`:
`gsap.to(rootNode.current.rotation, { duration: 0.5, y: ... + deltaY, ease: "power1.inOut" })`. -/
structure TweenRequest where
  duration : ℝ
  targetY : ℝ
  ease : String

/-- The observable effect of one `rotateGallery` call in the title-label
variant: the tween issued on the root rotation (none when `rootNode.current`
is null) and the argument of the `changeIndex` callback. -/
structure RotateEffect where
  tween : Option TweenRequest
  changeIndexCall : Option Nat

/-- `rotateGallery(direction, newIndex)` of the title-label variant: the
tween on `rotation.y` is guarded by the null-check on `rootNode.current`,
while `changeIndex(newIndex)` is called unconditionally after it. -/
noncomputable def rotateGallery (direction : Int) (newIndex : Nat)
    (rootRotationY : Option ℝ) : RotateEffect :=
  { tween := rootRotationY.map (fun y =>
      { duration := 0.5, targetY := y + deltaY direction, ease := "power1.inOut" })
  , changeIndexCall := some newIndex }

/-- One mesh of the `Artwork` render tree: its local position, its `name`
and its `userData.index` tag. -/
structure Mesh where
  position : ℝ × ℝ × ℝ
  name : String
  userDataIndex : Option Nat

/-- The `object3D` node one `Artwork` component renders:
`rotation={[0, index * 2 * Math.PI / count, 0]}` with the frame box, the
artwork box and the two tagged arrow planes as children. -/
structure Object3DNode where
  rotationX : ℝ
  rotationY : ℝ
  rotationZ : ℝ
  children : List Mesh

/-- The `Artwork` component for the item at `index` out of `count`. -/
noncomputable def Artwork (count index : Nat) : Object3DNode :=
  { rotationX := 0
  , rotationY := index * 2 * Real.pi / count
  , rotationZ := 0
  , children :=
    [ { position := (0, 0, -4), name := "", userDataIndex := none }
    , { position := (0, 0, -4), name := "", userDataIndex := none }
    , { position := (-1.75, 0, -4), name := "LeftArrow",
        userDataIndex := some (leftArrowIndex count index) }
    , { position := (1.75, 0, -4), name := "RightArrow",
        userDataIndex := some (rightArrowIndex count index) } ] }

/-- Modelled from the spec: the angular offset the spec assigns to each
gallery position, `index * 2π / N` around the shared vertical axis.  Kept
separate from `Artwork` so the placement the code computes can be compared
against the spec's formula. -/
noncomputable def specAngularOffset (count index : Nat) : ℝ :=
  index * (2 * Real.pi / count)

/-- The settled application state of the title-label variant: the carousel
index held by `useState` and the accumulated `rotation.y` of the gallery
root. -/
structure AppState where
  index : Nat
  rotationY : ℝ

/-- One click event run to completion in the title-label variant: the hit
test picks the action, `rotateGallery` moves `rotation.y` by `deltaY` and,
through `changeIndex = animateChangeArtwork`, the index is swapped to the
arrow's tag once the fade-out completes. -/
noncomputable def appSettled (s : AppState) (intersections : List Intersection) : AppState :=
  match checkIntersection intersections with
  | ClickAction.navigate d (some newIndex) =>
      { index := newIndex, rotationY := s.rotationY + deltaY d }
  | _ => s

/-- An event in the trace of the title crossfade: a tween on the selector
target starting or completing with the given end opacity, or the
`setIndex` call. -/
inductive FadeEvent where
  | fadeStart (target : String) (endOpacity : Nat) : FadeEvent
  | fadeComplete (target : String) (endOpacity : Nat) : FadeEvent
  | setIndexCall (newIndex : Nat) : FadeEvent
deriving DecidableEq

/-- The tween engine's contract for an opacity tween with an `onComplete`
callback: the tween starts, runs to completion, and only then are the
callback's events performed. -/
def gsapToFade (target : String) (endOpacity : Nat) (onComplete : List FadeEvent) :
    List FadeEvent :=
  FadeEvent.fadeStart target endOpacity :: FadeEvent.fadeComplete target endOpacity :: onComplete

/-- `animateChangeArtwork(newIndex)` of the title-label variant:
`gsap.to("h1", {opacity: 0, ..., onComplete: () => { setIndex(newIndex); gsap.to("h1", {opacity: 1, ...}); }})`. -/
def animateChangeArtwork (newIndex : Nat) : List FadeEvent :=
  gsapToFade "h1" 0 (FadeEvent.setIndexCall newIndex :: gsapToFade "h1" 1 [])

/-- The heading opacity after a prefix of the crossfade trace: it starts
fully opaque and each completed tween leaves it at that tween's end
opacity. -/
def opacityAfter (events : List FadeEvent) : Nat :=
  events.foldl (fun o e =>
    match e with
    | FadeEvent.fadeComplete _ endOpacity => endOpacity
    | _ => o) 1

/-- The intersection list of a click squarely on the right-arrow plane of
the facing item `i`: the arrow is the nearest (only) hit. -/
def rightArrowClick (i : Nat) : List Intersection :=
  [⟨"RightArrow", some (rightArrowIndex images.length i)⟩]

/-- The intersection list of a click squarely on the left-arrow plane of
the facing item `i`: the arrow is the nearest (only) hit. -/
def leftArrowClick (i : Nat) : List Intersection :=
  [⟨"LeftArrow", some (leftArrowIndex images.length i)⟩]

/-- The gallery holds five items. -/
lemma images_length : images.length = 5 := rfl

/-- Closed form of the left-arrow tag: it is the successor index modulo the
item count. -/
lemma leftArrowIndex_eq (n i : Nat) (h0 : 0 < n) (hi : i < n) :
    leftArrowIndex n i = (i + 1) % n := by
  unfold leftArrowIndex
  split_ifs with h
  · have hn : n - 1 + 1 = n := by omega
    rw [h, hn, Nat.mod_self]
  · rw [Nat.mod_eq_of_lt (by omega)]

/-- Closed form of the right-arrow tag: it is the predecessor index modulo
the item count. -/
lemma rightArrowIndex_eq (n i : Nat) (h0 : 0 < n) (hi : i < n) :
    rightArrowIndex n i = (i + (n - 1)) % n := by
  unfold rightArrowIndex
  split_ifs with h
  · rw [h, Nat.zero_add, Nat.mod_eq_of_lt (by omega)]
  · have hsum : i + (n - 1) = (i - 1) + n := by omega
    rw [hsum, Nat.add_mod_right, Nat.mod_eq_of_lt (by omega)]

/-- C3 counterexample: the claim's formulas fail at the first item of the
five-item gallery — its left-arrow tag is `1`, not `(0 - 1 + 5) % 5 = 4`,
and its right-arrow tag is `4`, not `(0 + 1) % 5 = 1`. -/
theorem C3_counterexample :
    leftArrowIndex images.length 0 ≠ (0 + images.length - 1) % images.length ∧
    rightArrowIndex images.length 0 ≠ (0 + 1) % images.length := by
  decide

/-- C3 (amended): the precomputed neighbour tags satisfy
`left = (index + 1) % N` and `right = (index - 1 + N) % N` — the mirror
image of the claim's formulas; in particular the item at index `0` has
right-neighbour tag `N - 1` and the item at index `N - 1` has
left-neighbour tag `0`. -/
theorem C3_neighbor_tags (n i : Nat) (h0 : 0 < n) (hi : i < n) :
    leftArrowIndex n i = (i + 1) % n ∧
    rightArrowIndex n i = (i + (n - 1)) % n ∧
    rightArrowIndex n 0 = n - 1 ∧
    leftArrowIndex n (n - 1) = 0 := by
  refine ⟨leftArrowIndex_eq n i h0 hi, rightArrowIndex_eq n i h0 hi, ?_, ?_⟩
  · unfold rightArrowIndex
    simp
  · unfold leftArrowIndex
    simp

/-- C3 witness: the amended tag formulas checked on the five-item gallery
at index `2`. -/
theorem C3_neighbor_tags_witness :
    leftArrowIndex 5 2 = (2 + 1) % 5 ∧
    rightArrowIndex 5 2 = (2 + (5 - 1)) % 5 ∧
    rightArrowIndex 5 0 = 5 - 1 ∧
    leftArrowIndex 5 (5 - 1) = 0 :=
  C3_neighbor_tags 5 2 (by decide) (by decide)

/-- C1 counterexample: in the five-item gallery, clicking the right arrow
of the facing item `0` navigates to index `4`, not to
`(0 + 1 + 5) % 5 = 1` as the claim states. -/
theorem C1_counterexample :
    checkIntersection [⟨"RightArrow", some (rightArrowIndex images.length 0)⟩] ≠
      ClickAction.navigate 1 (some ((0 + 1 + images.length) % images.length)) := by
  decide

/-- C1 (amended): triggering navigation via the right arrow of the facing
item `i` yields direction `+1` and `newIndex = (i - 1 + N) % N`, and via
the left arrow direction `-1` and `newIndex = (i + 1) % N`; equivalently
the new index equals `(i - direction + N) % N` with Right = `+1` and
Left = `-1`. -/
theorem C1_navigation (n i : Nat) (rest : List Intersection)
    (h0 : 0 < n) (hi : i < n) :
    checkIntersection (⟨"RightArrow", some (rightArrowIndex n i)⟩ :: rest) =
      ClickAction.navigate 1 (some ((i + (n - 1)) % n)) ∧
    checkIntersection (⟨"LeftArrow", some (leftArrowIndex n i)⟩ :: rest) =
      ClickAction.navigate (-1) (some ((i + 1) % n)) := by
  constructor
  · simp [checkIntersection, rightArrowIndex_eq n i h0 hi]
  · simp [checkIntersection, leftArrowIndex_eq n i h0 hi]

/-- C1 witness: the amended navigation relation checked on the five-item
gallery at facing index `0` with an empty tail of further intersections. -/
theorem C1_navigation_witness :
    checkIntersection [⟨"RightArrow", some (rightArrowIndex 5 0)⟩] =
      ClickAction.navigate 1 (some ((0 + (5 - 1)) % 5)) ∧
    checkIntersection [⟨"LeftArrow", some (leftArrowIndex 5 0)⟩] =
      ClickAction.navigate (-1) (some ((0 + 1) % 5)) :=
  C1_navigation 5 0 [] (by decide) (by decide)

/-- C10: in the title-label variant `rotateGallery` calls
`changeIndex(newIndex)` unconditionally, outside the null-check on the
root node reference: with no root object the index update still happens
while no tween is issued, and with a root object the same index update
happens. -/
theorem C10_changeIndex_unconditional (d : Int) (k : Nat) (y : ℝ) :
    (rotateGallery d k none).changeIndexCall = some k ∧
    (rotateGallery d k none).tween = none ∧
    (rotateGallery d k (some y)).changeIndexCall = some k := by
  exact ⟨rfl, rfl, rfl⟩

/-- C6: for either navigation direction, a present root object receives a
tween whose target is the current rotation plus `deltaY`, the delta has
magnitude exactly `2π/N` independent of the starting rotation and index,
and its sign matches the direction (the product `d * deltaY d` is
positive). -/
theorem C6_rotation_delta (d : Int) (k : Nat) (y : ℝ) (hd : d = 1 ∨ d = -1) :
    (rotateGallery d k (some y)).tween =
      some { duration := 0.5, targetY := y + deltaY d, ease := "power1.inOut" } ∧
    |deltaY d| = 2 * Real.pi / images.length ∧
    0 < (d : ℝ) * deltaY d := by
  have hpos : 0 < 2 * Real.pi / (images.length : ℝ) := by
    rw [images_length]
    positivity
  refine ⟨rfl, ?_, ?_⟩
  · rcases hd with h | h
    · rw [h]
      simp only [deltaY, Int.cast_one, one_mul]
      exact abs_of_pos hpos
    · rw [h]
      simp only [deltaY, Int.cast_neg, Int.cast_one, neg_mul, one_mul, abs_neg]
      exact abs_of_pos hpos
  · rcases hd with h | h
    · rw [h]
      simp only [Int.cast_one, one_mul, deltaY]
      exact hpos
    · rw [h]
      simp only [deltaY, Int.cast_neg, Int.cast_one, neg_mul, one_mul, neg_neg]
      exact hpos

/-- C6 witness: the rotation-delta facts checked at direction `+1`,
arrow tag `0` and current root rotation `0`. -/
theorem C6_rotation_delta_witness :
    (rotateGallery 1 0 (some 0)).tween =
      some { duration := 0.5, targetY := 0 + deltaY 1, ease := "power1.inOut" } ∧
    |deltaY 1| = 2 * Real.pi / images.length ∧
    0 < ((1 : Int) : ℝ) * deltaY 1 :=
  C6_rotation_delta 1 0 0 (Or.inl rfl)

/-- C7: the click handler consults only the nearest intersected object —
the tail of the distance-ordered intersection list is irrelevant — and the
outcome is a function of that object's `name` (fixing the direction) and
its precomputed `userData.index` tag (fixing the resulting index) alone. -/
theorem C7_nearest_only (o o2 : Intersection) (rest rest2 : List Intersection)
    (hname : o.name = o2.name) (hidx : o.userDataIndex = o2.userDataIndex) :
    checkIntersection (o :: rest) = checkIntersection (o2 :: rest2) ∧
    checkIntersection (o :: rest) =
      (if o.name = "LeftArrow" then ClickAction.navigate (-1) o.userDataIndex
       else if o.name = "RightArrow" then ClickAction.navigate 1 o.userDataIndex
       else ClickAction.noAction) := by
  constructor
  · simp [checkIntersection, hname, hidx]
  · rfl

/-- C7 witness: the nearest-only facts checked for a right-arrow hit with
an empty tail against the same hit with a left arrow deeper in the list. -/
theorem C7_nearest_only_witness :
    checkIntersection [⟨"RightArrow", some 4⟩] =
      checkIntersection [⟨"RightArrow", some 4⟩, ⟨"LeftArrow", some 1⟩] ∧
    checkIntersection [⟨"RightArrow", some 4⟩] =
      (if (Intersection.mk "RightArrow" (some 4)).name = "LeftArrow" then
        ClickAction.navigate (-1) (Intersection.mk "RightArrow" (some 4)).userDataIndex
       else if (Intersection.mk "RightArrow" (some 4)).name = "RightArrow" then
        ClickAction.navigate 1 (Intersection.mk "RightArrow" (some 4)).userDataIndex
       else ClickAction.noAction) :=
  C7_nearest_only ⟨"RightArrow", some 4⟩ ⟨"RightArrow", some 4⟩ []
    [⟨"LeftArrow", some 1⟩] rfl rfl

/-- C8: the item at index `i` is placed at the angular offset
`i * 2π / N` of the spec around the shared vertical axis: its node's
y-rotation equals the spec's formula and its x- and z-rotations vanish. -/
theorem C8_radial_placement (n i : Nat) :
    (Artwork n i).rotationY = specAngularOffset n i ∧
    (Artwork n i).rotationX = 0 ∧
    (Artwork n i).rotationZ = 0 := by
  refine ⟨?_, rfl, rfl⟩
  unfold Artwork specAngularOffset
  ring

/-- C9: a click whose intersection list is empty, or whose nearest object
is named neither `"LeftArrow"` nor `"RightArrow"`, performs no action and
leaves the carousel index unchanged, even if an arrow sits deeper in the
list. -/
theorem C9_non_arrow_click (o : Intersection) (rest : List Intersection) (i : Nat)
    (h1 : o.name ≠ "LeftArrow") (h2 : o.name ≠ "RightArrow") :
    checkIntersection (o :: rest) = ClickAction.noAction ∧
    checkIntersection [] = ClickAction.noAction ∧
    appStep i (o :: rest) = i ∧
    appStep i [] = i := by
  have hno : checkIntersection (o :: rest) = ClickAction.noAction := by
    simp [checkIntersection, h1, h2]
  exact ⟨hno, rfl, by simp [appStep, hno], rfl⟩

/-- C9 witness: a click on the untagged artwork mesh with a right arrow
deeper in the intersection list does nothing. -/
theorem C9_non_arrow_click_witness :
    checkIntersection [⟨"", none⟩, ⟨"RightArrow", some 4⟩] = ClickAction.noAction ∧
    checkIntersection [] = ClickAction.noAction ∧
    appStep 0 [⟨"", none⟩, ⟨"RightArrow", some 4⟩] = 0 ∧
    appStep 0 [] = 0 :=
  C9_non_arrow_click ⟨"", none⟩ [⟨"RightArrow", some 4⟩] 0 (by decide) (by decide)

/-- C4: the title crossfade is strictly sequenced.  The trace of
`animateChangeArtwork` is exactly fade-out start, fade-out completion,
index swap, fade-in start, fade-in completion; at whichever position the
swap occurs the heading opacity folded over the preceding prefix is `0`
(fully transparent), and any fade-in start occurs strictly after the
swap, so the label never shows stale text mid-transition. -/
theorem C4_crossfade_sequenced (newIndex j k : Nat)
    (hj : (animateChangeArtwork newIndex).get? j = some (FadeEvent.setIndexCall newIndex))
    (hk : (animateChangeArtwork newIndex).get? k = some (FadeEvent.fadeStart "h1" 1)) :
    animateChangeArtwork newIndex =
      [FadeEvent.fadeStart "h1" 0, FadeEvent.fadeComplete "h1" 0,
       FadeEvent.setIndexCall newIndex, FadeEvent.fadeStart "h1" 1,
       FadeEvent.fadeComplete "h1" 1] ∧
    opacityAfter ((animateChangeArtwork newIndex).take j) = 0 ∧
    j < k := by
  have hj2 : j = 2 := by
    rcases j with _ | _ | _ | _ | _ | j
    · simp [animateChangeArtwork, gsapToFade] at hj
    · simp [animateChangeArtwork, gsapToFade] at hj
    · rfl
    · simp [animateChangeArtwork, gsapToFade] at hj
    · simp [animateChangeArtwork, gsapToFade] at hj
    · simp [animateChangeArtwork, gsapToFade] at hj
  have hk3 : k = 3 := by
    rcases k with _ | _ | _ | _ | _ | k
    · simp [animateChangeArtwork, gsapToFade] at hk
    · simp [animateChangeArtwork, gsapToFade] at hk
    · simp [animateChangeArtwork, gsapToFade] at hk
    · rfl
    · simp [animateChangeArtwork, gsapToFade] at hk
    · simp [animateChangeArtwork, gsapToFade] at hk
  subst hj2
  subst hk3
  exact ⟨rfl, rfl, by omega⟩

/-- C4 witness: the crossfade sequencing checked for a swap to index `3`,
with the swap at trace position `2` and the fade-in start at position `3`. -/
theorem C4_crossfade_sequenced_witness :
    animateChangeArtwork 3 =
      [FadeEvent.fadeStart "h1" 0, FadeEvent.fadeComplete "h1" 0,
       FadeEvent.setIndexCall 3, FadeEvent.fadeStart "h1" 1,
       FadeEvent.fadeComplete "h1" 1] ∧
    opacityAfter ((animateChangeArtwork 3).take 2) = 0 ∧
    2 < 3 :=
  C4_crossfade_sequenced 3 2 3 rfl rfl

/-- Every tag carried by a scene object is a valid index of the gallery. -/
lemma sceneObjects_tag_lt : ∀ o ∈ sceneObjects, o.userDataIndex.getD 0 < images.length := by
  decide

/-- One settled click either leaves the index unchanged or replaces it by
the tag of the nearest hit object. -/
lemma appStep_cases (i : Nat) (o : Intersection) (rest : List Intersection) :
    appStep i (o :: rest) = i ∨ some (appStep i (o :: rest)) = o.userDataIndex := by
  have hc : checkIntersection (o :: rest) =
      (if o.name = "LeftArrow" then ClickAction.navigate (-1) o.userDataIndex
       else if o.name = "RightArrow" then ClickAction.navigate 1 o.userDataIndex
       else ClickAction.noAction) := rfl
  simp only [appStep, hc]
  split_ifs with h1 h2
  · cases o.userDataIndex with
    | none => left; rfl
    | some k => right; rfl
  · cases o.userDataIndex with
    | none => left; rfl
    | some k => right; rfl
  · left; rfl

/-- A settled click on scene objects keeps the index below the item count. -/
lemma appStep_lt (i : Nat) (ev : List Intersection)
    (hi : i < images.length) (h : ∀ o ∈ ev, o ∈ sceneObjects) :
    appStep i ev < images.length := by
  cases ev with
  | nil => exact hi
  | cons o rest =>
    rcases appStep_cases i o rest with h1 | h1
    · rw [h1]
      exact hi
    · have htag := sceneObjects_tag_lt o (h o (List.mem_cons_self o rest))
      rw [← h1] at htag
      simpa using htag

/-- Any sequence of settled clicks on scene objects keeps the index below
the item count. -/
lemma foldl_appStep_lt (events : List (List Intersection)) (i : Nat)
    (hi : i < images.length)
    (h : ∀ ev ∈ events, ∀ o ∈ ev, o ∈ sceneObjects) :
    events.foldl appStep i < images.length := by
  induction events generalizing i with
  | nil => exact hi
  | cons ev rest ih =>
    simp only [List.foldl_cons]
    exact ih (appStep i ev)
      (appStep_lt i ev hi (h ev (List.mem_cons_self ev rest)))
      (fun ev2 hev2 => h ev2 (List.mem_cons_of_mem ev hev2))

/-- C5: starting from `useState(0)`, after any sequence of clicks whose
intersections are scene objects the carousel index stays in `[0, N)`;
navigation needs no precondition since every arrow tag already wraps
modulo `N`, and a click the handler maps to no action leaves the index
untouched, so only the navigation action mutates it. -/
theorem C5_index_invariant (events : List (List Intersection))
    (ev : List Intersection) (i : Nat)
    (h : ∀ ev2 ∈ events, ∀ o ∈ ev2, o ∈ sceneObjects)
    (hno : checkIntersection ev = ClickAction.noAction) :
    events.foldl appStep 0 < images.length ∧ appStep i ev = i := by
  refine ⟨foldl_appStep_lt events 0 (by decide) h, ?_⟩
  simp [appStep, hno]

/-- C5 witness: two arrow clicks keep the index in range, and a click on
the untagged artwork mesh leaves index `3` unchanged. -/
theorem C5_index_invariant_witness :
    ([[⟨"RightArrow", some 4⟩], [⟨"LeftArrow", some 0⟩]] :
        List (List Intersection)).foldl appStep 0 < images.length ∧
    appStep 3 [⟨"", none⟩] = 3 :=
  C5_index_invariant [[⟨"RightArrow", some 4⟩], [⟨"LeftArrow", some 0⟩]]
    [⟨"", none⟩] 3 (by decide) (by decide)

/-- C2 counterexample: in the five-item gallery, a click on the
`"RightArrow"` hit target of the facing item `0` moves the index to `4`,
not to `1`, and the displayed title becomes the fifth item's, not the
second item's. -/
theorem C2_counterexample :
    (appSettled ⟨0, 0⟩ (rightArrowClick 0)).index ≠ 1 ∧
    displayedTitle (appSettled ⟨0, 0⟩ (rightArrowClick 0)).index ≠ "You Luke Huge" := by
  decide

/-- C2 (amended): end-to-end scenario with `N = 5` and the items in
listed order: starting at index `0`, a click on the `"RightArrow"` hit
target of item `0` makes the index `4`, makes the displayed title the
fifth item's title (`"Groundbreaking"`), and rotates the gallery root by
`+2π/5`; a subsequent click on `"LeftArrow"` of the now-facing item `4`
returns the index to `0`. -/
theorem C2_scenario (y : ℝ) :
    (appSettled ⟨0, y⟩ (rightArrowClick 0)).index = 4 ∧
    (appSettled ⟨0, y⟩ (rightArrowClick 0)).rotationY = y + 2 * Real.pi / 5 ∧
    displayedTitle (appSettled ⟨0, y⟩ (rightArrowClick 0)).index = "Groundbreaking" ∧
    (appSettled (appSettled ⟨0, y⟩ (rightArrowClick 0)) (leftArrowClick 4)).index = 0 := by
  have h1 : appSettled ⟨0, y⟩ (rightArrowClick 0) =
      { index := 4, rotationY := y + deltaY 1 } := rfl
  have hd : deltaY 1 = 2 * Real.pi / 5 := by
    simp [deltaY, images_length]
  refine ⟨rfl, ?_, rfl, rfl⟩
  rw [h1, hd]
